import Mathlib

/-!
Verification of the payment-provider subsystem of nitrokit-core
(`src/services/payment`): the PayTR and Stripe provider adapters, their
request validation, basket encodings, HMAC signing/verification and
response normalization.  Each JavaScript function used by the claims is
translated into an executable Lean definition; network effects are made
explicit by passing the HTTP outcome as a parameter, and thrown
exceptions become `Except.error`.
-/

/-! ## JavaScript platform primitives -/

/-- Characters matched by the JavaScript regex class `\s`. -/
def jsWhitespace (c : Char) : Bool :=
  let n := c.toNat
  n == 0x9 || n == 0xA || n == 0xB || n == 0xC || n == 0xD || n == 0x20 ||
  n == 0xA0 || n == 0x1680 || (0x2000 ≤ n && n ≤ 0x200A) ||
  n == 0x2028 || n == 0x2029 || n == 0x202F || n == 0x205F || n == 0x3000 || n == 0xFEFF

/-- JavaScript `a || b` for strings: `a` unless it is falsy (empty). -/
def jsOr (a b : String) : String := if a = "" then b else a

/-- Runtime value of the `amount` field of a callback payload
(TypeScript type `number | string`).  Numbers are integral minor
currency units, modeled as `Int`. -/
inductive JSAmount where
  | num (n : Int)
  | str (s : String)
deriving DecidableEq

/-- JavaScript `String(amount)`. -/
def JSAmount.toJsString : JSAmount → String
  | .num n => toString n
  | .str s => s

/-- JavaScript truthiness of a `number | string` value. -/
def JSAmount.truthy : JSAmount → Bool
  | .num n => n != 0
  | .str s => s != ""

/-- Truthiness of a possibly-missing string field (`undefined` or `""` are falsy). -/
def optStrTruthy : Option String → Bool
  | none => false
  | some s => s != ""

/-- Truthiness of a possibly-missing `number | string` field. -/
def optAmtTruthy : Option JSAmount → Bool
  | none => false
  | some a => a.truthy

/-- UTF-8 encoding of a single character, as byte values. -/
def utf8CharBytes (c : Char) : List Nat :=
  let n := c.toNat
  if n < 0x80 then [n]
  else if n < 0x800 then [0xC0 + n / 64, 0x80 + n % 64]
  else if n < 0x10000 then [0xE0 + n / 4096, 0x80 + n / 64 % 64, 0x80 + n % 64]
  else [0xF0 + n / 262144, 0x80 + n / 4096 % 64, 0x80 + n / 64 % 64, 0x80 + n % 64]

/-- UTF-8 encoding of a string, as byte values (model of `Buffer.from(s)`). -/
def utf8Bytes (s : String) : List Nat := (s.data.map utf8CharBytes).flatten

/-- The base64 alphabet. -/
def base64Digit (n : Nat) : Char :=
  "ABCDEFGHIJKLMNOPQRSTUVWXYZabcdefghijklmnopqrstuvwxyz0123456789+/".data.getD n 'A'

/-- Standard base64 encoding of a byte list, with padding. -/
def base64Chars : List Nat → List Char
  | [] => []
  | [a] => [base64Digit (a / 4), base64Digit (a % 4 * 16), '=', '=']
  | [a, b] => [base64Digit (a / 4), base64Digit (a % 4 * 16 + b / 16), base64Digit (b % 16 * 4), '=']
  | a :: b :: c :: rest =>
      base64Digit (a / 4) :: base64Digit (a % 4 * 16 + b / 16) ::
      base64Digit (b % 16 * 4 + c / 64) :: base64Digit (c % 64) :: base64Chars rest

/-- Base64 encoding of a byte list as a string. -/
def base64Encode (bytes : List Nat) : String := String.mk (base64Chars bytes)

/-- Model of `Buffer.from(s).toString('base64')`. -/
def base64OfString (s : String) : String := base64Encode (utf8Bytes s)

/-- Lowercase hexadecimal digit. -/
def hexLower (n : Nat) : Char := "0123456789abcdef".data.getD n '0'

/-- Escape of a single character inside a JSON string literal, as produced
by `JSON.stringify` (non-ASCII characters are emitted literally). -/
def jsonEscapeChar (c : Char) : List Char :=
  if c = '"' then ['\\', '"']
  else if c = '\\' then ['\\', '\\']
  else if c = '\x08' then ['\\', 'b']
  else if c = '\t' then ['\\', 't']
  else if c = '\n' then ['\\', 'n']
  else if c = '\x0c' then ['\\', 'f']
  else if c = '\r' then ['\\', 'r']
  else if c.toNat < 0x20 then ['\\', 'u', '0', '0', hexLower (c.toNat / 16), hexLower (c.toNat % 16)]
  else [c]

/-- JSON string literal for `s`, as produced by `JSON.stringify`. -/
def jsonQuote (s : String) : String :=
  "\"" ++ String.mk ((s.data.map jsonEscapeChar).flatten) ++ "\""

/-- Model of the JavaScript expression `(price / 100).toFixed(2)` for an
integral, nonnegative `price`: the exact two-decimal string.  (The
double-precision detour in the source reproduces the exact decimal for
all realistic magnitudes, so the model is the exact value.) -/
def toFixed2Of100th (price : Int) : String :=
  let n := price.toNat
  toString (n / 100) ++ "." ++ (if n % 100 < 10 then "0" else "") ++ toString (n % 100)

/-- Model of JavaScript `s.substring(0, k)`.  JavaScript counts UTF-16
code units; for Basic-Multilingual-Plane strings this is the character
count used here. -/
def jsSubstringTo (s : String) (k : Nat) : String := String.mk (s.data.take k)

/-- Model of JavaScript `s.toLowerCase()` (ASCII behaviour). -/
def jsToLowerCase (s : String) : String := String.mk (s.data.map Char.toLower)

/-- Model of `String.startsWith` from the source (`url.startsWith('http')`). -/
def strStartsWith (s pre : String) : Bool := pre.data.isPrefixOf s.data

/-- Modelled from the spec: Node's `crypto.createHmac('sha256',
key).update(message).digest('base64')`, an external platform primitive
that is not part of this repository.  Following §4.3 of the spec
("`sign(message, key) -> base64 HMAC-SHA256 digest`"), the digest is
modeled symbolically as a keyed encoding that is injective in the
message for a fixed key — the standard collision-free idealization of
HMAC-SHA256. -/
def hmacSha256Base64 (key message : String) : String :=
  "hmac:" ++ toString key.length ++ ":" ++ key ++ message

/-- Splitting a character list at every occurrence of `sep`
(model of `String.prototype.split` for the email analysis). -/
def splitOnChar (sep : Char) : List Char → List (List Char)
  | [] => [[]]
  | c :: rest =>
    let r := splitOnChar sep rest
    if c = sep then [] :: r
    else
      match r with
      | [] => [[c]]
      | h :: t => (c :: h) :: t

/-- Decision procedure for the source's email regex
`^[^\s@]+@[^\s@]+\.[^\s@]+$`: the string is `A ++ "@" ++ D` where `A` is
nonempty, neither part contains whitespace or `@`, and `D` contains a
dot that is neither its first nor its last character. -/
def emailRegexTest (s : String) : Bool :=
  match splitOnChar '@' s.data with
  | [a, d] =>
    !a.isEmpty && a.all (fun c => !jsWhitespace c) && d.all (fun c => !jsWhitespace c) &&
    ((d.drop 1).dropLast.contains '.')
  | _ => false

/-- Whether `needle` occurs as a contiguous subsequence of `hay`. -/
def containsSeq (hay needle : List Char) : Bool :=
  match hay with
  | [] => needle.isEmpty
  | _ :: t => needle.isPrefixOf hay || containsSeq t needle

/-- An error message is amount-related when it mentions the amount
(matching both `Amount` and `amount`). -/
def mentionsAmount (m : String) : Bool := containsSeq m.data "mount".data

deriving instance DecidableEq for Except

/-- Whether an `Except` computation succeeded. -/
def exOk : Except String α → Bool
  | .ok _ => true
  | .error _ => false

/-! ## Data model (`src/services/payment/types.ts`) -/

/-- `PaymentBasketItem`: name, unit price in minor currency units, quantity. -/
structure PaymentBasketItem where
  name : String
  price : Int
  quantity : Int
deriving DecidableEq

/-- `CreatePaymentRequest` from `types.ts`.  Amounts are integral minor
currency units. -/
structure CreatePaymentRequest where
  orderId : String
  amount : Int
  email : String
  successUrl : String
  failUrl : String
  userIp : Option String := none
  userAgent : Option String := none
  basket : Option (List PaymentBasketItem) := none
  installment : Option Int := none
  currency : Option String := none
  userName : Option String := none
  userPhone : Option String := none
  userAddress : Option String := none
deriving DecidableEq

/-- Provider-specific error code (`string | number`). -/
inductive ECode where
  | s (v : String)
  | n (v : Int)
deriving DecidableEq

/-- The `PayTRCreateResponse` shape parsed from the PayTR `get-token`
endpoint.  All fields are optional because the parsed JSON body may
omit any of them at runtime. -/
structure PayTRCreateResponse where
  status : Option String := none
  token : Option String := none
  reason : Option String := none
  reason_code : Option ECode := none
deriving DecidableEq

/-- The nested `error` object of a Stripe error response body. -/
structure StripeErrInner where
  message : Option String := none
  code : Option ECode := none
deriving DecidableEq

/-- A Stripe error response body (`error.error?` may be absent). -/
structure StripeErrorBody where
  error : Option StripeErrInner := none
deriving DecidableEq

/-- A parsed Stripe checkout-session body; `id` and `url` may be absent
from the JSON at runtime. -/
structure StripeSession where
  id : Option String := none
  url : Option String := none
deriving DecidableEq

/-- The opaque `raw` field of a `CreatePaymentResponse`. -/
inductive RawPayload where
  | text (s : String)
  | paytrData (d : PayTRCreateResponse)
  | stripeError (e : StripeErrorBody)
  | stripeSessionData (s : StripeSession)
  | thrown (message : String)
deriving DecidableEq

/-- `CreatePaymentResponse` from `types.ts`. -/
structure CreatePaymentResponse where
  success : Bool
  token : Option String := none
  paymentUrl : Option String := none
  reason : Option String := none
  errorCode : Option ECode := none
  raw : Option RawPayload := none
deriving DecidableEq

/-- `PaymentCallback` from `types.ts`.  Every field is optional because
an inbound, unauthenticated payload may omit any of them at runtime. -/
structure PaymentCallback where
  orderId : Option String := none
  status : Option String := none
  amount : Option JSAmount := none
  hash : Option String := none
deriving DecidableEq

/-- `RefundRequest` from `types.ts`. -/
structure RefundRequest where
  orderId : String
  amount : Option Int := none
deriving DecidableEq

/-! ## PayTR provider (`src/services/payment/providers/paytr.ts`) -/

/-- Constructor argument `PayTRConfig` (all fields optional). -/
structure PayTRConfig where
  merchantId : Option String := none
  merchantKey : Option String := none
  merchantSalt : Option String := none
  apiBase : Option String := none
  testMode : Option Bool := none
deriving DecidableEq

/-- The PayTR-relevant slice of `process.env`; `none` models an unset
variable. -/
structure PaytrEnv where
  PAYTR_MERCHANT_ID : Option String := none
  PAYTR_KEY : Option String := none
  PAYTR_SALT : Option String := none
  PAYTR_API_BASE : Option String := none
  PAYTR_TEST : Option String := none
deriving DecidableEq

/-- The immutable state a successfully constructed `PayTRProvider` holds. -/
structure PayTRProvider where
  merchantId : String
  merchantKey : String
  merchantSalt : String
  apiBase : String
  testMode : Bool
deriving DecidableEq

/-- JavaScript `a ?? b ?? ''` over optional strings. -/
def resolveOpt (a b : Option String) : String := ((a.orElse fun _ => b).getD "")

/-- `config?.merchantId ?? process.env.PAYTR_MERCHANT_ID ?? ''`. -/
def resolvedMerchantId (config : Option PayTRConfig) (env : PaytrEnv) : String :=
  resolveOpt (config.bind (·.merchantId)) env.PAYTR_MERCHANT_ID

/-- `config?.merchantKey ?? process.env.PAYTR_KEY ?? ''`. -/
def resolvedMerchantKey (config : Option PayTRConfig) (env : PaytrEnv) : String :=
  resolveOpt (config.bind (·.merchantKey)) env.PAYTR_KEY

/-- `config?.merchantSalt ?? process.env.PAYTR_SALT ?? ''`. -/
def resolvedMerchantSalt (config : Option PayTRConfig) (env : PaytrEnv) : String :=
  resolveOpt (config.bind (·.merchantSalt)) env.PAYTR_SALT

/-- The `PayTRProvider` constructor: resolve each credential from the
explicit config, then the environment, then a default; throw when the
resolved `merchantId` or `merchantKey` is falsy. -/
def mkPayTRProvider (config : Option PayTRConfig) (env : PaytrEnv) : Except String PayTRProvider :=
  if resolvedMerchantId config env = "" || resolvedMerchantKey config env = "" then
    .error "PayTR configuration missing: merchantId and merchantKey are required."
  else
    .ok { merchantId := resolvedMerchantId config env
          merchantKey := resolvedMerchantKey config env
          merchantSalt := resolvedMerchantSalt config env
          apiBase := ((config.bind (·.apiBase)).orElse fun _ => env.PAYTR_API_BASE).getD "https://www.paytr.com"
          testMode := (config.bind (·.testMode)).getD
            (env.PAYTR_TEST == some "1" || env.PAYTR_TEST == some "true") }

/-- `PayTRProvider.hmacBase64`: HMAC-SHA256 with the merchant key,
base64-encoded. -/
def PayTRProvider.hmacBase64 (st : PayTRProvider) (message : String) : String :=
  hmacSha256Base64 st.merchantKey message

/-- Validation and conversion of one basket item inside
`PayTRProvider.encodeBasket`: name must be a nonempty string, price a
number `≥ 0`, quantity a number `≥ 1`; the result is the triple
`[name.substring(0, 100), (price / 100).toFixed(2), quantity]`. -/
def paytrFormatBasketItem (item : PaymentBasketItem) : Except String (String × String × Int) :=
  if item.name = "" then .error "Basket item name is required and must be a string"
  else if item.price < 0 then .error "Basket item price must be a positive number"
  else if item.quantity < 1 then .error "Basket item quantity must be at least 1"
  else .ok (jsSubstringTo item.name 100, toFixed2Of100th item.price, item.quantity)

/-- Structural traversal collecting the first thrown error
(model of `Array.prototype.map` over a throwing callback). -/
def mapExcept (f : α → Except String β) : List α → Except String (List β)
  | [] => .ok []
  | a :: rest => do
    let b ← f a
    let bs ← mapExcept f rest
    .ok (b :: bs)

/-- `JSON.stringify` of one formatted basket triple `[name, price, qty]`. -/
def basketTripleJson (t : String × String × Int) : String :=
  "[" ++ jsonQuote t.1 ++ "," ++ jsonQuote t.2.1 ++ "," ++ toString t.2.2 ++ "]"

/-- `JSON.stringify` of the formatted basket (an array of triples). -/
def jsonTriplesArr (l : List (String × String × Int)) : String :=
  "[" ++ String.intercalate "," (l.map basketTripleJson) ++ "]"

/-- `PayTRProvider.encodeBasket`: an empty list becomes the single
placeholder triple; otherwise each item is validated and converted, and
the JSON serialization of the triples is base64-encoded. -/
def paytrEncodeBasket (items : List PaymentBasketItem) : Except String String :=
  if items.isEmpty then
    .ok (base64OfString (jsonTriplesArr [("Ürün", "1.00", (1 : Int))]))
  else do
    let formatted ← mapExcept paytrFormatBasketItem items
    .ok (base64OfString (jsonTriplesArr formatted))

/-- `PayTRProvider.validatePaymentRequest`.  The source guards
`!params.x || extraCheck` pairs collapse because the extra check already
rejects the empty string (the empty string fails the email regex and
does not start with `http`). -/
def paytrValidatePaymentRequest (params : CreatePaymentRequest) : Except String Unit :=
  if params.orderId = "" then .error "Order ID is required and must be a string"
  else if params.amount < 1 then .error "Amount must be a positive number (in kuruş)"
  else if !emailRegexTest params.email then .error "Valid email address is required"
  else if !strStartsWith params.successUrl "http" then .error "Valid success URL is required"
  else if !strStartsWith params.failUrl "http" then .error "Valid fail URL is required"
  else .ok ()

/-- A value of the outbound form-body object before `URLSearchParams`
stringification: the source stores both strings and numbers. -/
inductive BodyVal where
  | vs (s : String)
  | vn (n : Int)
deriving DecidableEq

/-- The source's cleanup loop (`delete body[k]` when the value is
`undefined` or `''`) followed by `URLSearchParams` stringification. -/
def bodyValKeep : BodyVal → Option String
  | .vs s => if s = "" then none else some s
  | .vn n => some (toString n)

/-- Apply `bodyValKeep` to every entry of an outbound body. -/
def cleanBody (l : List (String × BodyVal)) : List (String × String) :=
  l.filterMap fun kv => (bodyValKeep kv.2).map fun s => (kv.1, s)

/-- `params.basket ? this.encodeBasket(params.basket) : this.encodeBasket([])`. -/
def paytrUserBasket (params : CreatePaymentRequest) : Except String String :=
  match params.basket with
  | some b => paytrEncodeBasket b
  | none => paytrEncodeBasket []

/-- The outbound `paytr_token`: HMAC of
`merchant_id + merchant_oid + amount + success_url + fail_url + rand`. -/
def paytrOutboundToken (st : PayTRProvider) (rand : String) (params : CreatePaymentRequest) : String :=
  st.hmacBase64 (st.merchantId ++ params.orderId ++ toString params.amount ++
    params.successUrl ++ params.failUrl ++ rand)

/-- The `get-token` form-body object, in source order, before the
cleanup loop. -/
def paytrCreateBodyRaw (st : PayTRProvider) (rand : String) (params : CreatePaymentRequest)
    (userBasket paytrToken : String) : List (String × BodyVal) :=
  [("merchant_id", .vs st.merchantId),
   ("merchant_oid", .vs params.orderId),
   ("user_ip", .vs (params.userIp.getD "127.0.0.1")),
   ("merchant_ok_url", .vs params.successUrl),
   ("merchant_fail_url", .vs params.failUrl),
   ("payment_amount", .vn params.amount),
   ("email", .vs params.email),
   ("user_name", .vs (params.userName.getD "")),
   ("user_address", .vs (params.userAddress.getD "")),
   ("user_phone", .vs (params.userPhone.getD "")),
   ("currency", .vs (params.currency.getD "TRY")),
   ("user_basket", .vs userBasket),
   ("paytr_token", .vs paytrToken),
   ("debug_on", .vn (if st.testMode then 1 else 0)),
   ("no_installment", .vn (if params.installment == some 0 then 1 else 0)),
   ("max_installment", .vn (match params.installment with | some n => n | none => 0)),
   ("rand", .vs rand),
   ("lang", .vs "tr")]

/-- The HTTP outcome of the PayTR `get-token` POST, seen from the
adapter: a non-2xx response with its text body, a 2xx response with its
parsed JSON body, or a rejection (transport failure or a body that
failed to read or parse), carrying the message of the caught error. -/
inductive PaytrHttpOutcome where
  | notOk (status : Nat) (statusText : String) (bodyText : String)
  | okJson (data : PayTRCreateResponse)
  | thrown (message : String)
deriving DecidableEq

/-- Translation of the PayTR `get-token` response into the canonical
`CreatePaymentResponse` (the branch structure after the `fetch`). -/
def paytrInterpretOutcome (out : PaytrHttpOutcome) : CreatePaymentResponse :=
  match out with
  | .notOk status statusText bodyText =>
      { success := false
        reason := some ("PayTR API error: " ++ toString status ++ " " ++ statusText)
        raw := some (.text bodyText) }
  | .okJson data =>
      if data.status == some "success" && optStrTruthy data.token then
        { success := true
          token := data.token
          paymentUrl := some ("https://www.paytr.com/odeme/guvenli/" ++ data.token.getD "")
          raw := some (.paytrData data) }
      else
        { success := false
          reason := some (jsOr (data.reason.getD "") "Unknown error")
          errorCode := data.reason_code
          raw := some (.paytrData data) }
  | .thrown message =>
      { success := false
        reason := some message
        raw := some (.thrown message) }

/-- `PayTRProvider.createPayment`.  The per-call nonce (from
`Math.random()`) and the HTTP outcome are explicit parameters; the
result pairs the form body actually POSTed with the returned
`CreatePaymentResponse`, and `Except.error` models exceptions thrown
before the network call. -/
def paytrCreatePayment (st : PayTRProvider) (rand : String) (params : CreatePaymentRequest)
    (out : PaytrHttpOutcome) : Except String (List (String × String) × CreatePaymentResponse) := do
  paytrValidatePaymentRequest params
  let userIp := params.userIp.getD "127.0.0.1"
  let amountStr := toString params.amount
  let hash := st.hmacBase64 (st.merchantId ++ params.orderId ++ amountStr ++
    params.successUrl ++ params.failUrl ++ rand)
  let userBasket ← paytrUserBasket params
  let _ := userIp
  let body := cleanBody (paytrCreateBodyRaw st rand params userBasket hash)
  pure (body, paytrInterpretOutcome out)

/-- `PayTRProvider.verifyCallback`: reject any payload with a falsy
`orderId`, `status`, `amount` or `hash`, then compare the stored hash
with the HMAC of `merchant_id + merchant_oid + status + total_amount +
merchant_salt`. -/
def PayTRProvider.verifyCallback (st : PayTRProvider) (payload : PaymentCallback) : Bool :=
  if !optStrTruthy payload.orderId || !optStrTruthy payload.status ||
     !optAmtTruthy payload.amount || !optStrTruthy payload.hash then
    false
  else
    let total := (payload.amount.getD (.str "")).toJsString
    let input := st.merchantId ++ payload.orderId.getD "" ++ payload.status.getD "" ++
      total ++ st.merchantSalt
    st.hmacBase64 input == payload.hash.getD ""

/-- `params.amount ? String(params.amount) : ''` in `PayTRProvider.refund`. -/
def paytrRefundAmountStr (params : RefundRequest) : String :=
  match params.amount with
  | some a => if a != 0 then toString a else ""
  | none => ""

/-- The `paytr_token` of a refund request:
HMAC of `merchant_id + merchant_oid + refund_amount + merchant_salt`. -/
def paytrRefundToken (st : PayTRProvider) (params : RefundRequest) : String :=
  st.hmacBase64 (st.merchantId ++ params.orderId ++ paytrRefundAmountStr params ++ st.merchantSalt)

/-- The refund form body: `refund_amount` is dropped when falsy
(`refundAmount || undefined` followed by the undefined-cleanup loop). -/
def paytrRefundBody (st : PayTRProvider) (params : RefundRequest) : List (String × String) :=
  [("merchant_id", st.merchantId), ("merchant_oid", params.orderId)] ++
  (if paytrRefundAmountStr params ≠ "" then [("refund_amount", paytrRefundAmountStr params)] else []) ++
  [("paytr_token", paytrRefundToken st params)]

/-- Outcome of a PayTR refund or query POST: a parsed 2xx body (kept
opaque as a string) or a non-2xx response. -/
inductive PaytrSimpleOutcome where
  | ok (body : String)
  | notOk (status : Nat) (statusText : String) (text : String)
deriving DecidableEq

/-- `PayTRProvider.refund`: throw when `orderId` is falsy, throw on a
non-2xx response, otherwise return the parsed body unmodified. -/
def paytrRefund (st : PayTRProvider) (params : RefundRequest) (out : PaytrSimpleOutcome) :
    Except String String :=
  if params.orderId = "" then .error "Order ID is required for refund"
  else
    let _ := paytrRefundBody st params
    match out with
    | .ok body => .ok body
    | .notOk status statusText text =>
        .error ("PayTR refund request failed: " ++ toString status ++ " " ++ statusText ++ " - " ++ text)

/-- The `paytr_token` of a transaction query:
HMAC of `merchant_id + merchant_oid + merchant_salt`. -/
def paytrQueryToken (st : PayTRProvider) (orderId : String) : String :=
  st.hmacBase64 (st.merchantId ++ orderId ++ st.merchantSalt)

/-- `PayTRProvider.queryTransaction`: throw when `orderId` is falsy,
throw on a non-2xx response, otherwise return the parsed body. -/
def paytrQueryTransaction (st : PayTRProvider) (orderId : String) (out : PaytrSimpleOutcome) :
    Except String String :=
  if orderId = "" then .error "Order ID is required for transaction query"
  else
    let _ := paytrQueryToken st orderId
    match out with
    | .ok body => .ok body
    | .notOk status statusText text =>
        .error ("PayTR get-payment request failed: " ++ toString status ++ " " ++ statusText ++ " - " ++ text)

/-! ## Stripe provider (`src/services/payment/providers/stripe.ts`) -/

/-- Constructor argument `StripeConfig` (all fields optional). -/
structure StripeConfig where
  secretKey : Option String := none
  publishableKey : Option String := none
  webhookSecret : Option String := none
  apiVersion : Option String := none
  testMode : Option Bool := none
deriving DecidableEq

/-- The Stripe-relevant slice of `process.env`. -/
structure StripeEnv where
  STRIPE_SECRET_KEY : Option String := none
  STRIPE_PUBLISHABLE_KEY : Option String := none
  STRIPE_WEBHOOK_SECRET : Option String := none
  STRIPE_API_VERSION : Option String := none
  STRIPE_TEST : Option String := none
deriving DecidableEq

/-- The immutable state a successfully constructed `StripeProvider` holds. -/
structure StripeProvider where
  secretKey : String
  publishableKey : String
  webhookSecret : String
  apiVersion : String
  testMode : Bool
deriving DecidableEq

/-- The fixed `apiBase` of the Stripe adapter. -/
def stripeApiBase : String := "https://api.stripe.com/v1"

/-- The `StripeProvider` constructor: resolve the credentials, throw
when the resolved `secretKey` is falsy.  (The key-format checks only
emit console warnings and are not modeled.) -/
def mkStripeProvider (config : Option StripeConfig) (env : StripeEnv) : Except String StripeProvider :=
  if resolveOpt (config.bind (·.secretKey)) env.STRIPE_SECRET_KEY = "" then
    .error "Stripe configuration missing: secretKey is required."
  else
    .ok { secretKey := resolveOpt (config.bind (·.secretKey)) env.STRIPE_SECRET_KEY
          publishableKey := resolveOpt (config.bind (·.publishableKey)) env.STRIPE_PUBLISHABLE_KEY
          webhookSecret := resolveOpt (config.bind (·.webhookSecret)) env.STRIPE_WEBHOOK_SECRET
          apiVersion := ((config.bind (·.apiVersion)).orElse fun _ => env.STRIPE_API_VERSION).getD "2024-11-20.acacia"
          testMode := (config.bind (·.testMode)).getD
            (env.STRIPE_TEST == some "1" || env.STRIPE_TEST == some "true") }

/-- A Stripe checkout line item (`StripeLineItem` in the source, with
the nested `price_data` / `product_data` flattened). -/
structure StripeLineItem where
  currency : String
  productName : String
  unitAmount : Int
  quantity : Int
deriving DecidableEq

/-- `StripeProvider.convertBasketToLineItems`: an empty basket becomes
one placeholder line item of 100 minor units; otherwise prices pass
through unconverted. -/
def convertBasketToLineItems (basket : List PaymentBasketItem) (currency : String) :
    List StripeLineItem :=
  if basket.isEmpty then
    [{ currency := jsToLowerCase currency, productName := "Order Payment", unitAmount := 100, quantity := 1 }]
  else
    basket.map fun item =>
      { currency := jsToLowerCase currency, productName := item.name,
        unitAmount := item.price, quantity := item.quantity }

/-- `StripeProvider.validatePaymentRequest` (identical rules to PayTR,
with a different amount message). -/
def stripeValidatePaymentRequest (params : CreatePaymentRequest) : Except String Unit :=
  if params.orderId = "" then .error "Order ID is required and must be a string"
  else if params.amount < 1 then .error "Amount must be a positive number (in smallest currency unit)"
  else if !emailRegexTest params.email then .error "Valid email address is required"
  else if !strStartsWith params.successUrl "http" then .error "Valid success URL is required"
  else if !strStartsWith params.failUrl "http" then .error "Valid fail URL is required"
  else .ok ()

/-- The four indexed `line_items[i][...]` form fields of one line item. -/
def stripeLineItemEntries (lineItems : List StripeLineItem) : List (String × String) :=
  (lineItems.enum.map fun p =>
    [("line_items[" ++ toString p.1 ++ "][price_data][currency]", p.2.currency),
     ("line_items[" ++ toString p.1 ++ "][price_data][product_data][name]", p.2.productName),
     ("line_items[" ++ toString p.1 ++ "][price_data][unit_amount]", toString p.2.unitAmount),
     ("line_items[" ++ toString p.1 ++ "][quantity]", toString p.2.quantity)]).flatten

/-- The checkout-session creation form body, in source insertion order. -/
def stripeCreateBody (params : CreatePaymentRequest) (lineItems : List StripeLineItem) :
    List (String × String) :=
  [("mode", "payment"),
   ("success_url", params.successUrl),
   ("cancel_url", params.failUrl),
   ("client_reference_id", params.orderId),
   ("customer_email", params.email)] ++
  stripeLineItemEntries lineItems ++
  [("metadata[order_id]", params.orderId)] ++
  (if optStrTruthy params.userName then [("metadata[customer_name]", params.userName.getD "")] else []) ++
  (if optStrTruthy params.userPhone then [("metadata[customer_phone]", params.userPhone.getD "")] else [])

/-- The HTTP outcome of the checkout-session POST: a non-2xx response
with its parsed error body, a 2xx response with its parsed session
body, or a rejection (transport failure or an unparseable body, on
either path) carrying the caught error's message. -/
inductive StripeHttpOutcome where
  | notOk (error : StripeErrorBody)
  | okJson (session : StripeSession)
  | thrown (message : String)
deriving DecidableEq

/-- Translation of the checkout-session response into the canonical
`CreatePaymentResponse`. -/
def stripeInterpretOutcome (out : StripeHttpOutcome) : CreatePaymentResponse :=
  match out with
  | .notOk e =>
      { success := false
        reason := some (jsOr ((e.error.bind (·.message)).getD "") "Stripe API error")
        errorCode := e.error.bind (·.code)
        raw := some (.stripeError e) }
  | .okJson session =>
      { success := true
        token := session.id
        paymentUrl := session.url
        raw := some (.stripeSessionData session) }
  | .thrown message =>
      { success := false
        reason := some message
        raw := some (.thrown message) }

/-- `StripeProvider.createPayment`: validate, build line items and the
form body, POST, and normalize the response.  The result pairs the form
body with the returned `CreatePaymentResponse`; `Except.error` models
the exceptions thrown before the network call. -/
def stripeCreatePayment (st : StripeProvider) (params : CreatePaymentRequest)
    (out : StripeHttpOutcome) : Except String (List (String × String) × CreatePaymentResponse) := do
  stripeValidatePaymentRequest params
  let currency := jsToLowerCase (params.currency.getD "TRY")
  let lineItems :=
    match params.basket with
    | some b => convertBasketToLineItems b currency
    | none =>
        [{ currency := currency, productName := "Order " ++ params.orderId,
           unitAmount := params.amount, quantity := 1 }]
  let _ := st
  pure (stripeCreateBody params lineItems, stripeInterpretOutcome out)

/-- `StripeProvider.verifyCallback`: reject a payload with falsy
`orderId`, `status` or `hash`; with no configured webhook secret,
accept; otherwise compare the hash against the webhook secret. -/
def StripeProvider.verifyCallback (st : StripeProvider) (payload : PaymentCallback) : Bool :=
  if !optStrTruthy payload.orderId || !optStrTruthy payload.status ||
     !optStrTruthy payload.hash then
    false
  else if st.webhookSecret = "" then
    true
  else
    payload.hash.getD "" == st.webhookSecret

/-- Outcome of one Stripe GET during `queryTransaction`: a 2xx response
with its parsed body (kept opaque as a string), a non-2xx response
(status text plus the optional `error.error?.message` of its parsed
body), a non-2xx response whose body failed to parse, or a rejected
fetch. -/
inductive StripeGetOutcome where
  | okJson (body : String)
  | notOk (statusText : String) (errMessage : Option String)
  | notOkBadJson (message : String)
  | reject (message : String)
deriving DecidableEq

/-- `StripeProvider.queryTransaction`: throw when `orderId` is falsy;
GET the payment-intent resource; on a non-OK response fall back to one
GET of the checkout-session resource; throw (wrapped) when the fallback
also fails.  The second component records the URLs fetched, in order.
(The body of the first, non-OK response is never read.) -/
def stripeQueryTransaction (st : StripeProvider) (orderId : String)
    (first second : StripeGetOutcome) : Except String String × List String :=
  if orderId = "" then
    (.error "Order ID (Payment Intent or Session ID) is required", [])
  else
    let _ := st
    let url1 := stripeApiBase ++ "/payment_intents/" ++ orderId
    let url2 := stripeApiBase ++ "/checkout/sessions/" ++ orderId
    let fallback : Except String String :=
      match second with
      | .okJson body => .ok body
      | .notOk statusText errMessage =>
          .error ("Stripe query failed: Transaction not found: " ++ jsOr (errMessage.getD "") statusText)
      | .notOkBadJson m => .error ("Stripe query failed: " ++ m)
      | .reject m => .error ("Stripe query failed: " ++ m)
    match first with
    | .okJson body => (.ok body, [url1])
    | .reject m => (.error ("Stripe query failed: " ++ m), [url1])
    | .notOk _ _ => (fallback, [url1, url2])
    | .notOkBadJson _ => (fallback, [url1, url2])

/-- `StripeProvider.getPublishableKey`. -/
def StripeProvider.getPublishableKey (st : StripeProvider) : String := st.publishableKey

/-! ## Spec-side predicates and shared fixtures -/

/-- The C1 response invariant as the spec states it: a failure result
carries a `reason`, a success result carries both `token` and
`paymentUrl`.  Exceptions (thrown before the network call) are outside
the claim. -/
def respC1Sound (e : Except String (List (String × String) × CreatePaymentResponse)) : Bool :=
  match e with
  | .error _ => true
  | .ok (_, r) => if r.success then r.token.isSome && r.paymentUrl.isSome else r.reason.isSome

/-- The amended C1 invariant for Stripe: a failure result carries a
`reason`; a 2xx session body yields a success result whose `token` and
`paymentUrl` are exactly the body's `id` and `url` fields (so they are
present precisely when the body contains them). -/
def stripeRespMirrorsSession (out : StripeHttpOutcome)
    (e : Except String (List (String × String) × CreatePaymentResponse)) : Bool :=
  match e with
  | .error _ => true
  | .ok (_, r) =>
    match out with
    | .okJson sess => r.success && (r.token == sess.id) && (r.paymentUrl == sess.url)
    | _ => !r.success && r.reason.isSome

/-- An HTTP outcome of the PayTR `get-token` call that is a failure for
the purposes of C7: a non-2xx response, a rejection, or a 2xx body the
adapter does not recognize as success. -/
def paytrOutcomeFailed : PaytrHttpOutcome → Bool
  | .notOk _ _ _ => true
  | .thrown _ => true
  | .okJson d => !(d.status == some "success" && optStrTruthy d.token)

/-- An HTTP outcome of the checkout-session call that is a failure. -/
def stripeOutcomeFailed : StripeHttpOutcome → Bool
  | .okJson _ => false
  | .notOk _ => true
  | .thrown _ => true

/-- The C7 failure-result shape: a returned (not thrown) result with
`success = false`, a `reason`, and the raw provider payload attached. -/
def failureResultShape (e : Except String (List (String × String) × CreatePaymentResponse)) : Bool :=
  match e with
  | .ok (_, r) => !r.success && r.reason.isSome && r.raw.isSome
  | .error _ => false

/-- The form body sent by a `createPayment` run (empty when the call
threw before the network call). -/
def sentBody (e : Except String (List (String × String) × CreatePaymentResponse)) :
    List (String × String) :=
  match e with
  | .ok (b, _) => b
  | .error _ => []

/-- The documented PayTR callback hash:
`base64(HMAC-SHA256(merchantKey, merchantId + orderId + status + String(amount) + merchantSalt))`. -/
def paytrCallbackHash (st : PayTRProvider) (o s : String) (a : JSAmount) : String :=
  hmacSha256Base64 st.merchantKey (st.merchantId ++ o ++ s ++ a.toJsString ++ st.merchantSalt)

/-- The PayTR basket encoding as C4 words it (base64 of the JSON of the
per-item triples, one placeholder triple for the empty list), except
that the placeholder name is the one the code actually uses. -/
def paytrBasketSpecEncoding (items : List PaymentBasketItem) : String :=
  if items.isEmpty then
    base64OfString (jsonTriplesArr [("Ürün", "1.00", (1 : Int))])
  else
    base64OfString (jsonTriplesArr (items.map fun it =>
      (jsSubstringTo it.name 100, toFixed2Of100th it.price, it.quantity)))

/-- A sample constructed PayTR provider used by concrete witnesses. -/
def samplePaytr : PayTRProvider :=
  { merchantId := "M", merchantKey := "K", merchantSalt := "S",
    apiBase := "https://www.paytr.com", testMode := false }

/-- A sample constructed Stripe provider with a configured webhook secret. -/
def sampleStripe : StripeProvider :=
  { secretKey := "sk_test_key", publishableKey := "", webhookSecret := "whsec_test",
    apiVersion := "2024-11-20.acacia", testMode := true }

/-- A sample constructed Stripe provider without a webhook secret. -/
def sampleStripeNoSecret : StripeProvider :=
  { secretKey := "sk_test_key", publishableKey := "", webhookSecret := "",
    apiVersion := "2024-11-20.acacia", testMode := true }

/-- A sample valid `CreatePaymentRequest` used by concrete witnesses. -/
def sampleReq : CreatePaymentRequest :=
  { orderId := "O1", amount := 10000, email := "a@b.com",
    successUrl := "https://x/ok", failUrl := "https://x/fail" }

/-! ## Helper lemmas -/

theorem string_data_app (s t : String) : (s ++ t).data = s.data ++ t.data := by
  cases s; cases t; rfl

theorem string_eq_of_data {s t : String} (h : String.data s = String.data t) : s = t := by
  cases s; cases t; exact congrArg String.mk h

theorem str_app_left_cancel {p a b : String} (h : p ++ a = p ++ b) : a = b := by
  have h2 : p.data ++ a.data = p.data ++ b.data := by
    have := congrArg String.data h
    simpa [string_data_app] using this
  exact string_eq_of_data (List.append_cancel_left h2)

theorem str_app_right_cancel {a b q : String} (h : a ++ q = b ++ q) : a = b := by
  have h2 : a.data ++ q.data = b.data ++ q.data := by
    have := congrArg String.data h
    simpa [string_data_app] using this
  exact string_eq_of_data (List.append_cancel_right h2)

theorem hmac_inj {key m1 m2 : String} (h : hmacSha256Base64 key m1 = hmacSha256Base64 key m2) :
    m1 = m2 := str_app_left_cancel h

theorem hmac_ne_empty (key m : String) : hmacSha256Base64 key m ≠ "" := by
  intro h
  have h2 := congrArg String.length h
  simp [hmacSha256Base64, String.length_append] at h2
  exact absurd h2.1.1.1.1 (by decide)

theorem str_app_empty (s : String) : s ++ "" = s := by
  apply string_eq_of_data
  simp [string_data_app]

theorem optStrTruthy_isSome {o : Option String} (h : optStrTruthy o = true) : o.isSome = true := by
  cases o <;> simp_all [optStrTruthy]

/-! ## Claim theorems -/

/-- C2 (amended): for both providers `verifyCallback` is a pure total
Boolean function (it is defined as one, so it is deterministic and
cannot throw); the PayTR variant returns `false` whenever any of
`orderId`, `status`, `amount` or `hash` is missing, and the Stripe
variant returns `false` whenever any of `orderId`, `status` or `hash`
is missing — the Stripe variant never reads `amount`. -/
theorem claim_C2 : ∀ (stP : PayTRProvider) (stS : StripeProvider) (p : PaymentCallback),
    ((p.orderId = none ∨ p.status = none ∨ p.amount = none ∨ p.hash = none) →
      PayTRProvider.verifyCallback stP p = false)
    ∧ ((p.orderId = none ∨ p.status = none ∨ p.hash = none) →
      StripeProvider.verifyCallback stS p = false) := by
  intro stP stS p
  constructor
  · rintro (h | h | h | h) <;>
      simp [PayTRProvider.verifyCallback, h, optStrTruthy, optAmtTruthy]
  · rintro (h | h | h) <;>
      simp [StripeProvider.verifyCallback, h, optStrTruthy]

/-- Witness for C2: concrete payloads with a missing `orderId` (PayTR)
and a missing `hash` (Stripe) are rejected. -/
theorem claim_C2_witness :
    ((⟨none, some "paid", some (.num 5), some "h"⟩ : PaymentCallback).orderId = none ∨
      (⟨none, some "paid", some (.num 5), some "h"⟩ : PaymentCallback).status = none ∨
      (⟨none, some "paid", some (.num 5), some "h"⟩ : PaymentCallback).amount = none ∨
      (⟨none, some "paid", some (.num 5), some "h"⟩ : PaymentCallback).hash = none) ∧
    PayTRProvider.verifyCallback samplePaytr ⟨none, some "paid", some (.num 5), some "h"⟩ = false ∧
    StripeProvider.verifyCallback sampleStripe ⟨some "o", some "paid", some (.num 5), none⟩ = false :=
  ⟨Or.inl rfl,
   (claim_C2 samplePaytr sampleStripe ⟨none, some "paid", some (.num 5), some "h"⟩).1 (Or.inl rfl),
   (claim_C2 samplePaytr sampleStripe ⟨some "o", some "paid", some (.num 5), none⟩).2
     (Or.inr (Or.inr rfl))⟩

/-- Counterexample to C2 as stated: a payload with a missing `amount`
but whose `hash` equals the configured webhook secret is accepted by
`StripeProvider.verifyCallback`, although the claim requires `false`
for every payload missing `amount`. -/
theorem claim_C2_counterexample :
    (⟨some "o", some "paid", none, some "whsec_test"⟩ : PaymentCallback).amount = none ∧
    StripeProvider.verifyCallback sampleStripe ⟨some "o", some "paid", none, some "whsec_test"⟩ = true :=
  ⟨rfl, by decide⟩

/-- C3 (amended): for a PayTR provider and a callback payload with
truthy fields whose `hash` is the documented
`base64(HMAC-SHA256(merchantKey, merchantId + orderId + status +
String(amount) + merchantSalt))`, `verifyCallback` returns `true`;
replacing `orderId` or `status` by a different value, or `amount` by a
value with a different string representation, while keeping the hash,
makes it return `false`.  (Replacing `amount` by a different value with
the same `String(amount)` — the counterexample — does not.) -/
theorem claim_C3 : ∀ (st : PayTRProvider) (o s : String) (a : JSAmount),
    o ≠ "" → s ≠ "" → a.truthy = true →
    (PayTRProvider.verifyCallback st ⟨some o, some s, some a, some (paytrCallbackHash st o s a)⟩ = true
     ∧ (∀ o2 : String, o2 ≠ "" → o2 ≠ o →
         PayTRProvider.verifyCallback st ⟨some o2, some s, some a, some (paytrCallbackHash st o s a)⟩ = false)
     ∧ (∀ s2 : String, s2 ≠ "" → s2 ≠ s →
         PayTRProvider.verifyCallback st ⟨some o, some s2, some a, some (paytrCallbackHash st o s a)⟩ = false)
     ∧ (∀ a2 : JSAmount, a2.truthy = true → a2.toJsString ≠ a.toJsString →
         PayTRProvider.verifyCallback st ⟨some o, some s, some a2, some (paytrCallbackHash st o s a)⟩ = false)) := by
  intro st o s a ho hs ha
  have hh := hmac_ne_empty st.merchantKey (st.merchantId ++ o ++ s ++ a.toJsString ++ st.merchantSalt)
  refine ⟨?_, ?_, ?_, ?_⟩
  · simp [PayTRProvider.verifyCallback, PayTRProvider.hmacBase64, paytrCallbackHash,
      optStrTruthy, optAmtTruthy, ho, hs, ha, hh]
  · intro o2 ho2 hne
    simp [PayTRProvider.verifyCallback, PayTRProvider.hmacBase64, paytrCallbackHash,
      optStrTruthy, optAmtTruthy, ho2, hs, ha, hh]
    intro heq
    have h1 := hmac_inj heq
    have h2 := str_app_right_cancel h1
    have h3 := str_app_right_cancel h2
    have h4 := str_app_right_cancel h3
    exact absurd (str_app_left_cancel h4) hne
  · intro s2 hs2 hne
    simp [PayTRProvider.verifyCallback, PayTRProvider.hmacBase64, paytrCallbackHash,
      optStrTruthy, optAmtTruthy, ho, hs2, ha, hh]
    intro heq
    have h1 := hmac_inj heq
    have h2 := str_app_right_cancel h1
    have h3 := str_app_right_cancel h2
    exact absurd (str_app_left_cancel h3) hne
  · intro a2 ha2 hne
    simp [PayTRProvider.verifyCallback, PayTRProvider.hmacBase64, paytrCallbackHash,
      optStrTruthy, optAmtTruthy, ho, hs, ha2, hh]
    intro heq
    have h1 := hmac_inj heq
    have h2 := str_app_right_cancel h1
    exact absurd (str_app_left_cancel h2) hne

/-- Witness for C3: the round trip verifies for a concrete merchant and
payload, and mutating `orderId`, `status` or the numeric `amount` each
makes verification fail. -/
theorem claim_C3_witness :
    ("O1" : String) ≠ "" ∧ ("1" : String) ≠ "" ∧ (JSAmount.num 5).truthy = true ∧
    PayTRProvider.verifyCallback samplePaytr
      ⟨some "O1", some "1", some (.num 5), some (paytrCallbackHash samplePaytr "O1" "1" (.num 5))⟩ = true ∧
    PayTRProvider.verifyCallback samplePaytr
      ⟨some "O2", some "1", some (.num 5), some (paytrCallbackHash samplePaytr "O1" "1" (.num 5))⟩ = false ∧
    PayTRProvider.verifyCallback samplePaytr
      ⟨some "O1", some "2", some (.num 5), some (paytrCallbackHash samplePaytr "O1" "1" (.num 5))⟩ = false ∧
    PayTRProvider.verifyCallback samplePaytr
      ⟨some "O1", some "1", some (.num 6), some (paytrCallbackHash samplePaytr "O1" "1" (.num 5))⟩ = false :=
  ⟨by decide, by decide, by decide,
   (claim_C3 samplePaytr "O1" "1" (.num 5) (by decide) (by decide) (by decide)).1,
   (claim_C3 samplePaytr "O1" "1" (.num 5) (by decide) (by decide) (by decide)).2.1 "O2"
     (by decide) (by decide),
   (claim_C3 samplePaytr "O1" "1" (.num 5) (by decide) (by decide) (by decide)).2.2.1 "2"
     (by decide) (by decide),
   (claim_C3 samplePaytr "O1" "1" (.num 5) (by decide) (by decide) (by decide)).2.2.2 (.num 6)
     (by decide) (by decide)⟩

/-- Counterexample to C3 as stated: replacing the numeric amount `5` by
the different value `"5"` (a string) while keeping the hash leaves
`verifyCallback` returning `true`, because `String(amount)` is
identical; the claim requires `false` for any replacement by a
different value. -/
theorem claim_C3_counterexample :
    (JSAmount.str "5" ≠ JSAmount.num 5) ∧
    PayTRProvider.verifyCallback samplePaytr
      ⟨some "O1", some "1", some (.num 5), some (paytrCallbackHash samplePaytr "O1" "1" (.num 5))⟩ = true ∧
    PayTRProvider.verifyCallback samplePaytr
      ⟨some "O1", some "1", some (.str "5"), some (paytrCallbackHash samplePaytr "O1" "1" (.num 5))⟩ = true :=
  ⟨by decide, by decide, by decide⟩

/-- C6 (amended): both validators check, in order, `orderId`, `amount`,
`email`, `successUrl`, `failUrl`, stopping at the first violated rule
with that rule's distinct message; a request with `amount < 1` fails
with an amount-related message provided `orderId` is a nonempty string
(an empty `orderId` fails first with the orderId message — the
counterexample); a request with `amount ≥ 1` and all other validated
fields well-formed passes.  The validators are pure functions of the
request, so validation performs no I/O. -/
theorem claim_C6 : ∀ p : CreatePaymentRequest,
    (p.orderId = "" →
      paytrValidatePaymentRequest p = .error "Order ID is required and must be a string"
      ∧ stripeValidatePaymentRequest p = .error "Order ID is required and must be a string")
    ∧ (p.orderId ≠ "" → p.amount < 1 →
      paytrValidatePaymentRequest p = .error "Amount must be a positive number (in kuruş)"
      ∧ stripeValidatePaymentRequest p = .error "Amount must be a positive number (in smallest currency unit)"
      ∧ mentionsAmount "Amount must be a positive number (in kuruş)" = true
      ∧ mentionsAmount "Amount must be a positive number (in smallest currency unit)" = true)
    ∧ (p.orderId ≠ "" → 1 ≤ p.amount → emailRegexTest p.email = false →
      paytrValidatePaymentRequest p = .error "Valid email address is required"
      ∧ stripeValidatePaymentRequest p = .error "Valid email address is required")
    ∧ (p.orderId ≠ "" → 1 ≤ p.amount → emailRegexTest p.email = true →
       strStartsWith p.successUrl "http" = false →
      paytrValidatePaymentRequest p = .error "Valid success URL is required"
      ∧ stripeValidatePaymentRequest p = .error "Valid success URL is required")
    ∧ (p.orderId ≠ "" → 1 ≤ p.amount → emailRegexTest p.email = true →
       strStartsWith p.successUrl "http" = true → strStartsWith p.failUrl "http" = false →
      paytrValidatePaymentRequest p = .error "Valid fail URL is required"
      ∧ stripeValidatePaymentRequest p = .error "Valid fail URL is required")
    ∧ (p.orderId ≠ "" → 1 ≤ p.amount → emailRegexTest p.email = true →
       strStartsWith p.successUrl "http" = true → strStartsWith p.failUrl "http" = true →
      paytrValidatePaymentRequest p = .ok () ∧ stripeValidatePaymentRequest p = .ok ()) := by
  intro p
  refine ⟨?_, ?_, ?_, ?_, ?_, ?_⟩
  · intro h1
    simp [paytrValidatePaymentRequest, stripeValidatePaymentRequest, h1]
  · intro h1 h2
    simp [paytrValidatePaymentRequest, stripeValidatePaymentRequest, h1, h2, mentionsAmount,
      containsSeq, List.isPrefixOf]
  · intro h1 h2 h3
    simp [paytrValidatePaymentRequest, stripeValidatePaymentRequest, h1, h3, Int.not_lt.mpr h2]
  · intro h1 h2 h3 h4
    simp [paytrValidatePaymentRequest, stripeValidatePaymentRequest, h1, h3, h4, Int.not_lt.mpr h2]
  · intro h1 h2 h3 h4 h5
    simp [paytrValidatePaymentRequest, stripeValidatePaymentRequest, h1, h3, h4, h5, Int.not_lt.mpr h2]
  · intro h1 h2 h3 h4 h5
    simp [paytrValidatePaymentRequest, stripeValidatePaymentRequest, h1, h3, h4, h5, Int.not_lt.mpr h2]

/-- Witness for C6: a request with a valid `orderId` but `amount = 0`
fails with the amount message in both providers, and the sample valid
request passes both validators. -/
theorem claim_C6_witness :
    (("O1" : String) ≠ "") ∧
    paytrValidatePaymentRequest
      { orderId := "O1", amount := 0, email := "a@b.com",
        successUrl := "https://x/ok", failUrl := "https://x/fail" } =
      .error "Amount must be a positive number (in kuruş)" ∧
    stripeValidatePaymentRequest
      { orderId := "O1", amount := 0, email := "a@b.com",
        successUrl := "https://x/ok", failUrl := "https://x/fail" } =
      .error "Amount must be a positive number (in smallest currency unit)" ∧
    mentionsAmount "Amount must be a positive number (in kuruş)" = true ∧
    mentionsAmount "Amount must be a positive number (in smallest currency unit)" = true ∧
    emailRegexTest sampleReq.email = true ∧
    paytrValidatePaymentRequest sampleReq = .ok () ∧
    stripeValidatePaymentRequest sampleReq = .ok () :=
  ⟨by decide,
   (claim_C6
      { orderId := "O1", amount := 0, email := "a@b.com",
        successUrl := "https://x/ok", failUrl := "https://x/fail" } |>.2.1
      (by decide) (by decide)).1,
   (claim_C6
      { orderId := "O1", amount := 0, email := "a@b.com",
        successUrl := "https://x/ok", failUrl := "https://x/fail" } |>.2.1
      (by decide) (by decide)).2.1,
   (claim_C6
      { orderId := "O1", amount := 0, email := "a@b.com",
        successUrl := "https://x/ok", failUrl := "https://x/fail" } |>.2.1
      (by decide) (by decide)).2.2.1,
   (claim_C6
      { orderId := "O1", amount := 0, email := "a@b.com",
        successUrl := "https://x/ok", failUrl := "https://x/fail" } |>.2.1
      (by decide) (by decide)).2.2.2,
   by decide,
   ((claim_C6 sampleReq).2.2.2.2.2 (by decide) (by decide) (by decide) (by decide) (by decide)).1,
   ((claim_C6 sampleReq).2.2.2.2.2 (by decide) (by decide) (by decide) (by decide) (by decide)).2⟩

/-- Counterexample to C6 as stated: a request whose `amount` is `0` but
whose `orderId` is also empty fails with the orderId message, which is
not amount-related, although the claim requires every request with
`amount < 1` to fail with an amount-related message. -/
theorem claim_C6_counterexample :
    ({ orderId := "", amount := 0, email := "a@b.com",
       successUrl := "https://x/ok", failUrl := "https://x/fail" } : CreatePaymentRequest).amount < 1 ∧
    paytrValidatePaymentRequest
      { orderId := "", amount := 0, email := "a@b.com",
        successUrl := "https://x/ok", failUrl := "https://x/fail" } =
      .error "Order ID is required and must be a string" ∧
    stripeValidatePaymentRequest
      { orderId := "", amount := 0, email := "a@b.com",
        successUrl := "https://x/ok", failUrl := "https://x/fail" } =
      .error "Order ID is required and must be a string" ∧
    mentionsAmount "Order ID is required and must be a string" = false :=
  ⟨by decide, by decide, by decide, by decide⟩

/-- C9: when the resolved webhook secret is empty (neither the config
nor the environment provides one), the constructed `StripeProvider`'s
`verifyCallback` returns `true` for every payload whose `orderId`,
`status` and `hash` are truthy, regardless of the hash value —
signature verification is skipped rather than failing closed. -/
theorem claim_C9 : ∀ (config : Option StripeConfig) (env : StripeEnv) (st : StripeProvider)
    (p : PaymentCallback),
    ((config.bind (·.webhookSecret)) = none → env.STRIPE_WEBHOOK_SECRET = none →
      mkStripeProvider config env = .ok st → st.webhookSecret = "")
    ∧ (st.webhookSecret = "" → optStrTruthy p.orderId = true → optStrTruthy p.status = true →
      optStrTruthy p.hash = true → StripeProvider.verifyCallback st p = true) := by
  intro config env st p
  constructor
  · intro h1 h2 h3
    unfold mkStripeProvider at h3
    split at h3
    · exact absurd h3 (by simp)
    · cases h3
      simp [resolveOpt, h1, h2]
  · intro hsec ho hs hh
    simp [StripeProvider.verifyCallback, ho, hs, hh, hsec]

/-- Witness for C9: a provider constructed with only a secret key has an
empty webhook secret, and accepts an arbitrary hash. -/
theorem claim_C9_witness :
    ((some { secretKey := some "sk_test_key" } : Option StripeConfig).bind (·.webhookSecret) = none) ∧
    (({} : StripeEnv).STRIPE_WEBHOOK_SECRET = none) ∧
    mkStripeProvider (some { secretKey := some "sk_test_key" }) {} =
      .ok { secretKey := "sk_test_key", publishableKey := "", webhookSecret := "",
            apiVersion := "2024-11-20.acacia", testMode := false } ∧
    StripeProvider.verifyCallback sampleStripeNoSecret
      ⟨some "o", some "paid", some (.num 5), some "anything"⟩ = true :=
  ⟨rfl, rfl,
   by decide,
   (claim_C9 (some { secretKey := some "sk_test_key" }) {} sampleStripeNoSecret
     ⟨some "o", some "paid", some (.num 5), some "anything"⟩).2 (by decide) (by decide)
     (by decide) (by decide)⟩

/-- C10: the `PayTRProvider` constructor throws exactly when the
resolved `merchantId` or `merchantKey` is empty; a missing
`merchantSalt` never prevents construction and resolves to the empty
string, after which the `verifyCallback`, `refund` and
`queryTransaction` hashes are HMACs of the message with the empty salt
appended — that is, of the message without a salt. -/
theorem claim_C10 : ∀ (config : Option PayTRConfig) (env : PaytrEnv) (st : PayTRProvider),
    (exOk (mkPayTRProvider config env) = false ↔
      (resolvedMerchantId config env = "" ∨ resolvedMerchantKey config env = ""))
    ∧ ((config.bind (·.merchantSalt)) = none → env.PAYTR_SALT = none →
      mkPayTRProvider config env = .ok st → st.merchantSalt = "")
    ∧ (st.merchantSalt = "" →
      (∀ o s : String, ∀ a : JSAmount, ∀ h : String,
        o ≠ "" → s ≠ "" → a.truthy = true → h ≠ "" →
        PayTRProvider.verifyCallback st ⟨some o, some s, some a, some h⟩ =
          (hmacSha256Base64 st.merchantKey (st.merchantId ++ o ++ s ++ a.toJsString) == h))
      ∧ (∀ params : RefundRequest, paytrRefundToken st params =
          hmacSha256Base64 st.merchantKey (st.merchantId ++ params.orderId ++ paytrRefundAmountStr params))
      ∧ (∀ oid : String, paytrQueryToken st oid =
          hmacSha256Base64 st.merchantKey (st.merchantId ++ oid))) := by
  intro config env st
  refine ⟨?_, ?_, ?_⟩
  · unfold mkPayTRProvider
    split
    · next hc => simp [exOk]; simpa using hc
    · next hc => simp [exOk]; simpa using hc
  · intro h1 h2 h3
    unfold mkPayTRProvider at h3
    split at h3
    · exact absurd h3 (by simp)
    · cases h3
      simp [resolvedMerchantSalt, resolveOpt, h1, h2]
  · intro hsalt
    refine ⟨?_, ?_, ?_⟩
    · intro o s a h ho hs ha hh
      simp [PayTRProvider.verifyCallback, PayTRProvider.hmacBase64, optStrTruthy, optAmtTruthy,
        ho, hs, ha, hh, hsalt, str_app_empty]
    · intro params
      simp [paytrRefundToken, PayTRProvider.hmacBase64, hsalt, str_app_empty]
    · intro oid
      simp [paytrQueryToken, PayTRProvider.hmacBase64, hsalt, str_app_empty]

/-- Witness for C10: a config with only a merchant key fails
construction; a config with id and key but no salt constructs a
provider with empty salt whose callback, refund and query hashes omit
the salt. -/
theorem claim_C10_witness :
    exOk (mkPayTRProvider (some { merchantKey := some "K" }) {}) = false ∧
    resolvedMerchantId (some { merchantKey := some "K" }) {} = "" ∧
    ((some { merchantId := some "M", merchantKey := some "K" } : Option PayTRConfig).bind
      (·.merchantSalt) = none) ∧
    (({} : PaytrEnv).PAYTR_SALT = none) ∧
    mkPayTRProvider (some { merchantId := some "M", merchantKey := some "K" }) {} =
      .ok { merchantId := "M", merchantKey := "K", merchantSalt := "",
            apiBase := "https://www.paytr.com", testMode := false } ∧
    PayTRProvider.verifyCallback
      { merchantId := "M", merchantKey := "K", merchantSalt := "",
        apiBase := "https://www.paytr.com", testMode := false }
      ⟨some "O1", some "1", some (.num 5), some "h1"⟩ =
      (hmacSha256Base64 "K" ("M" ++ "O1" ++ "1" ++ JSAmount.toJsString (.num 5)) == "h1") ∧
    paytrRefundToken
      { merchantId := "M", merchantKey := "K", merchantSalt := "",
        apiBase := "https://www.paytr.com", testMode := false } { orderId := "O1", amount := some 50 } =
      hmacSha256Base64 "K" ("M" ++ "O1" ++ paytrRefundAmountStr { orderId := "O1", amount := some 50 }) ∧
    paytrQueryToken
      { merchantId := "M", merchantKey := "K", merchantSalt := "",
        apiBase := "https://www.paytr.com", testMode := false } "O1" =
      hmacSha256Base64 "K" ("M" ++ "O1") :=
  ⟨(claim_C10 (some { merchantKey := some "K" }) {} samplePaytr).1.mpr (Or.inl (by decide)),
   by decide, rfl, rfl, by decide,
   ((claim_C10 (some { merchantId := some "M", merchantKey := some "K" }) {}
      { merchantId := "M", merchantKey := "K", merchantSalt := "",
        apiBase := "https://www.paytr.com", testMode := false }).2.2 rfl).1
     "O1" "1" (.num 5) "h1" (by decide) (by decide) (by decide) (by decide),
   ((claim_C10 (some { merchantId := some "M", merchantKey := some "K" }) {}
      { merchantId := "M", merchantKey := "K", merchantSalt := "",
        apiBase := "https://www.paytr.com", testMode := false }).2.2 rfl).2.1
     { orderId := "O1", amount := some 50 },
   ((claim_C10 (some { merchantId := some "M", merchantKey := some "K" }) {}
      { merchantId := "M", merchantKey := "K", merchantSalt := "",
        apiBase := "https://www.paytr.com", testMode := false }).2.2 rfl).2.2 "O1"⟩

/-- C1 (amended): for every validated request and every HTTP outcome,
the PayTR `createPayment` response satisfies the invariant exactly
(failure implies `reason`, success implies `token` and `paymentUrl`);
the Stripe response satisfies failure-implies-`reason`, and on a 2xx
body its `token` and `paymentUrl` are exactly the session body's `id`
and `url` — present precisely when the body contains them (a 2xx body
without them, the counterexample, yields a success response missing
them). -/
theorem claim_C1 : ∀ (stP : PayTRProvider) (rand : String) (pP : CreatePaymentRequest)
    (outP : PaytrHttpOutcome) (stS : StripeProvider) (pS : CreatePaymentRequest)
    (outS : StripeHttpOutcome),
    respC1Sound (paytrCreatePayment stP rand pP outP) = true
    ∧ stripeRespMirrorsSession outS (stripeCreatePayment stS pS outS) = true := by
  intro stP rand pP outP stS pS outS
  constructor
  · cases hv : paytrValidatePaymentRequest pP with
    | error e => simp [paytrCreatePayment, hv, respC1Sound, Bind.bind, Except.bind,
        Functor.map, Except.map, Pure.pure, Except.pure]
    | ok u =>
      cases u
      cases hb : paytrUserBasket pP with
      | error e => simp [paytrCreatePayment, hv, hb, respC1Sound, Bind.bind, Except.bind,
          Functor.map, Except.map, Pure.pure, Except.pure]
      | ok basket =>
        cases outP with
        | notOk status statusText bodyText =>
            simp [paytrCreatePayment, hv, hb, respC1Sound, Bind.bind, Except.bind,
              Functor.map, Except.map, Pure.pure, Except.pure, paytrInterpretOutcome]
        | thrown m =>
            simp [paytrCreatePayment, hv, hb, respC1Sound, Bind.bind, Except.bind,
              Functor.map, Except.map, Pure.pure, Except.pure, paytrInterpretOutcome]
        | okJson d =>
            by_cases hc : (d.status == some "success" && optStrTruthy d.token) = true
            · simp [paytrCreatePayment, hv, hb, respC1Sound, Bind.bind, Except.bind,
                Functor.map, Except.map, Pure.pure, Except.pure, paytrInterpretOutcome, hc,
                optStrTruthy_isSome (Bool.and_elim_right hc)]
            · simp [paytrCreatePayment, hv, hb, respC1Sound, Bind.bind, Except.bind,
                Functor.map, Except.map, Pure.pure, Except.pure, paytrInterpretOutcome, hc]
  · cases hv : stripeValidatePaymentRequest pS with
    | error e => simp [stripeCreatePayment, hv, stripeRespMirrorsSession, Bind.bind, Except.bind,
        Functor.map, Except.map, Pure.pure, Except.pure]
    | ok u =>
      cases u
      cases outS with
      | notOk e =>
          simp [stripeCreatePayment, hv, stripeRespMirrorsSession, Bind.bind, Except.bind,
            Functor.map, Except.map, Pure.pure, Except.pure, stripeInterpretOutcome]
      | thrown m =>
          simp [stripeCreatePayment, hv, stripeRespMirrorsSession, Bind.bind, Except.bind,
            Functor.map, Except.map, Pure.pure, Except.pure, stripeInterpretOutcome]
      | okJson sess =>
          simp [stripeCreatePayment, hv, stripeRespMirrorsSession, Bind.bind, Except.bind,
            Functor.map, Except.map, Pure.pure, Except.pure, stripeInterpretOutcome]

/-- Counterexample to C1 as stated: a Stripe 2xx session body containing
neither `id` nor `url` produces a response with `success = true` but no
`token` and no `paymentUrl`, violating the claimed invariant. -/
theorem claim_C1_counterexample :
    respC1Sound (stripeCreatePayment sampleStripe sampleReq (.okJson { id := none, url := none })) = false ∧
    (stripeCreatePayment sampleStripe sampleReq (.okJson { id := none, url := none })).toOption.map
      (fun x => (x.2.success, x.2.token, x.2.paymentUrl)) = some (true, none, none) :=
  ⟨by decide, by decide⟩

/-- C7: for every request that passes validation (and, for PayTR, basket
encoding), `createPayment` of both providers never throws — every HTTP
outcome yields a returned result, and every failing outcome (non-2xx,
rejection/unparseable body, or an unrecognized 2xx body) yields a
`success = false` result with a `reason` and the raw payload attached;
conversely an exception is only ever thrown when validation or basket
encoding fails, before the network call. -/
theorem claim_C7 : ∀ (stP : PayTRProvider) (rand : String) (pP : CreatePaymentRequest)
    (outP : PaytrHttpOutcome) (stS : StripeProvider) (pS : CreatePaymentRequest)
    (outS : StripeHttpOutcome),
    (exOk (paytrValidatePaymentRequest pP) = true → exOk (paytrUserBasket pP) = true →
      exOk (paytrCreatePayment stP rand pP outP) = true
      ∧ (paytrOutcomeFailed outP = true →
          failureResultShape (paytrCreatePayment stP rand pP outP) = true))
    ∧ (exOk (paytrCreatePayment stP rand pP outP) = false →
        exOk (paytrValidatePaymentRequest pP) = false ∨ exOk (paytrUserBasket pP) = false)
    ∧ (exOk (stripeValidatePaymentRequest pS) = true →
        exOk (stripeCreatePayment stS pS outS) = true
        ∧ (stripeOutcomeFailed outS = true →
            failureResultShape (stripeCreatePayment stS pS outS) = true))
    ∧ (exOk (stripeCreatePayment stS pS outS) = false →
        exOk (stripeValidatePaymentRequest pS) = false) := by
  intro stP rand pP outP stS pS outS
  have hPcreate : exOk (paytrValidatePaymentRequest pP) = true →
      exOk (paytrUserBasket pP) = true →
      exOk (paytrCreatePayment stP rand pP outP) = true := by
    intro hv0 hb0
    cases hv : paytrValidatePaymentRequest pP with
    | error e => rw [hv] at hv0; simp [exOk] at hv0
    | ok u =>
      cases u
      cases hb : paytrUserBasket pP with
      | error e => rw [hb] at hb0; simp [exOk] at hb0
      | ok basket =>
        simp [paytrCreatePayment, hv, hb, exOk, Bind.bind, Except.bind,
          Functor.map, Except.map, Pure.pure, Except.pure]
  have hScreate : exOk (stripeValidatePaymentRequest pS) = true →
      exOk (stripeCreatePayment stS pS outS) = true := by
    intro hv0
    cases hv : stripeValidatePaymentRequest pS with
    | error e => rw [hv] at hv0; simp [exOk] at hv0
    | ok u =>
      cases u
      simp [stripeCreatePayment, hv, exOk, Bind.bind, Except.bind,
        Functor.map, Except.map, Pure.pure, Except.pure]
  refine ⟨?_, ?_, ?_, ?_⟩
  · intro hv0 hb0
    refine ⟨hPcreate hv0 hb0, ?_⟩
    intro hf
    cases hv : paytrValidatePaymentRequest pP with
    | error e => rw [hv] at hv0; simp [exOk] at hv0
    | ok u =>
      cases u
      cases hb : paytrUserBasket pP with
      | error e => rw [hb] at hb0; simp [exOk] at hb0
      | ok basket =>
        cases outP with
        | notOk status statusText bodyText =>
            simp [paytrCreatePayment, hv, hb, failureResultShape, Bind.bind, Except.bind,
              Functor.map, Except.map, Pure.pure, Except.pure, paytrInterpretOutcome]
        | thrown m =>
            simp [paytrCreatePayment, hv, hb, failureResultShape, Bind.bind, Except.bind,
              Functor.map, Except.map, Pure.pure, Except.pure, paytrInterpretOutcome]
        | okJson d =>
            cases hcb : (d.status == some "success" && optStrTruthy d.token) with
            | true => simp [paytrOutcomeFailed, hcb] at hf
            | false =>
                simp [paytrCreatePayment, hv, hb, failureResultShape, Bind.bind, Except.bind,
                  Functor.map, Except.map, Pure.pure, Except.pure, paytrInterpretOutcome, hcb]
  · intro hbad
    by_cases hv2 : exOk (paytrValidatePaymentRequest pP) = true
    · by_cases hb2 : exOk (paytrUserBasket pP) = true
      · simp [hPcreate hv2 hb2] at hbad
      · exact Or.inr (by simpa using hb2)
    · exact Or.inl (by simpa using hv2)
  · intro hv0
    refine ⟨hScreate hv0, ?_⟩
    intro hf
    cases hv : stripeValidatePaymentRequest pS with
    | error e => rw [hv] at hv0; simp [exOk] at hv0
    | ok u =>
      cases u
      cases outS with
      | notOk e =>
          simp [stripeCreatePayment, hv, failureResultShape, Bind.bind, Except.bind,
            Functor.map, Except.map, Pure.pure, Except.pure, stripeInterpretOutcome]
      | thrown m =>
          simp [stripeCreatePayment, hv, failureResultShape, Bind.bind, Except.bind,
            Functor.map, Except.map, Pure.pure, Except.pure, stripeInterpretOutcome]
      | okJson sess => simp [stripeOutcomeFailed] at hf
  · intro hbad
    cases hv : stripeValidatePaymentRequest pS with
    | error e => simp [exOk]
    | ok u =>
      cases u
      have := hScreate (by simp [hv, exOk])
      simp [this] at hbad

/-- Witness for C7: a valid request whose fetch rejects yields a
returned failure-shaped result from both providers. -/
theorem claim_C7_witness :
    exOk (paytrValidatePaymentRequest sampleReq) = true ∧
    exOk (paytrUserBasket sampleReq) = true ∧
    exOk (paytrCreatePayment samplePaytr "r1" sampleReq (.thrown "boom")) = true ∧
    paytrOutcomeFailed (.thrown "boom") = true ∧
    failureResultShape (paytrCreatePayment samplePaytr "r1" sampleReq (.thrown "boom")) = true ∧
    exOk (stripeValidatePaymentRequest sampleReq) = true ∧
    exOk (stripeCreatePayment sampleStripe sampleReq (.thrown "boom")) = true ∧
    failureResultShape (stripeCreatePayment sampleStripe sampleReq (.thrown "boom")) = true :=
  ⟨by decide, by decide,
   ((claim_C7 samplePaytr "r1" sampleReq (.thrown "boom") sampleStripe sampleReq
      (.thrown "boom")).1 (by decide) (by decide)).1,
   by decide,
   ((claim_C7 samplePaytr "r1" sampleReq (.thrown "boom") sampleStripe sampleReq
      (.thrown "boom")).1 (by decide) (by decide)).2 (by decide),
   by decide,
   ((claim_C7 samplePaytr "r1" sampleReq (.thrown "boom") sampleStripe sampleReq
      (.thrown "boom")).2.2.1 (by decide)).1,
   ((claim_C7 samplePaytr "r1" sampleReq (.thrown "boom") sampleStripe sampleReq
      (.thrown "boom")).2.2.1 (by decide)).2 (by decide)⟩

/-- C5: for every request that passes validation and basket encoding,
and a nonempty per-call nonce, the form body POSTed by
`PayTRProvider.createPayment` contains `paytr_token` equal to
`base64(HMAC-SHA256(merchantKey, merchantId + orderId + String(amount) +
successUrl + failUrl + rand))`, the same `rand` in the `rand` field, and
`payment_amount` equal to the same `String(amount)` used in the
signature message (the unconverted minor-units string). -/
theorem claim_C5 : ∀ (st : PayTRProvider) (rand : String) (p : CreatePaymentRequest)
    (out : PaytrHttpOutcome),
    exOk (paytrValidatePaymentRequest p) = true → exOk (paytrUserBasket p) = true → rand ≠ "" →
    ("paytr_token", paytrOutboundToken st rand p) ∈ sentBody (paytrCreatePayment st rand p out)
    ∧ ("rand", rand) ∈ sentBody (paytrCreatePayment st rand p out)
    ∧ ("payment_amount", toString p.amount) ∈ sentBody (paytrCreatePayment st rand p out) := by
  intro st rand p out hv0 hb0 hrand
  cases hv : paytrValidatePaymentRequest p with
  | error e => rw [hv] at hv0; simp [exOk] at hv0
  | ok u =>
    cases u
    cases hb : paytrUserBasket p with
    | error e => rw [hb] at hb0; simp [exOk] at hb0
    | ok basket =>
      have hbody : sentBody (paytrCreatePayment st rand p out) =
          cleanBody (paytrCreateBodyRaw st rand p basket (paytrOutboundToken st rand p)) := by
        simp [paytrCreatePayment, hv, hb, sentBody, paytrOutboundToken, Bind.bind, Except.bind,
          Functor.map, Except.map, Pure.pure, Except.pure]
      rw [hbody]
      have htok : paytrOutboundToken st rand p ≠ "" := by
        simp [paytrOutboundToken, PayTRProvider.hmacBase64]
        exact hmac_ne_empty _ _
      refine ⟨?_, ?_, ?_⟩
      · refine List.mem_filterMap.mpr ⟨("paytr_token", BodyVal.vs (paytrOutboundToken st rand p)), ?_, ?_⟩
        · simp [paytrCreateBodyRaw]
        · simp [bodyValKeep, htok]
      · refine List.mem_filterMap.mpr ⟨("rand", BodyVal.vs rand), ?_, ?_⟩
        · simp [paytrCreateBodyRaw]
        · simp [bodyValKeep, hrand]
      · refine List.mem_filterMap.mpr ⟨("payment_amount", BodyVal.vn p.amount), ?_, ?_⟩
        · simp [paytrCreateBodyRaw]
        · simp [bodyValKeep]

/-- Witness for C5: the sample request's outbound body contains the
signed token, the nonce, and the unconverted amount string. -/
theorem claim_C5_witness :
    exOk (paytrValidatePaymentRequest sampleReq) = true ∧
    exOk (paytrUserBasket sampleReq) = true ∧
    ("r1" : String) ≠ "" ∧
    ("paytr_token", paytrOutboundToken samplePaytr "r1" sampleReq) ∈
      sentBody (paytrCreatePayment samplePaytr "r1" sampleReq (.thrown "boom")) ∧
    ("rand", "r1") ∈ sentBody (paytrCreatePayment samplePaytr "r1" sampleReq (.thrown "boom")) ∧
    ("payment_amount", toString sampleReq.amount) ∈
      sentBody (paytrCreatePayment samplePaytr "r1" sampleReq (.thrown "boom")) :=
  ⟨by decide, by decide, by decide,
   (claim_C5 samplePaytr "r1" sampleReq (.thrown "boom") (by decide) (by decide) (by decide)).1,
   (claim_C5 samplePaytr "r1" sampleReq (.thrown "boom") (by decide) (by decide) (by decide)).2.1,
   (claim_C5 samplePaytr "r1" sampleReq (.thrown "boom") (by decide) (by decide) (by decide)).2.2⟩

/-- C8: `StripeProvider.queryTransaction` throws on an empty `orderId`
without fetching; otherwise it GETs the payment-intent URL, returning
its body on success with no fallback call; on a non-OK first response
it performs exactly one fallback GET of the checkout-session URL,
returning the fallback body if OK and throwing the wrapped
transaction-not-found error if not. -/
theorem claim_C8 : ∀ (st : StripeProvider) (oid : String) (first second : StripeGetOutcome)
    (b stext : String) (em : Option String),
    (stripeQueryTransaction st "" first second =
      (.error "Order ID (Payment Intent or Session ID) is required", []))
    ∧ (oid ≠ "" → stripeQueryTransaction st oid (.okJson b) second =
        (.ok b, [stripeApiBase ++ "/payment_intents/" ++ oid]))
    ∧ (oid ≠ "" → (stripeQueryTransaction st oid (.notOk stext em) second).2 =
        [stripeApiBase ++ "/payment_intents/" ++ oid, stripeApiBase ++ "/checkout/sessions/" ++ oid])
    ∧ (oid ≠ "" → (stripeQueryTransaction st oid (.notOk stext em) (.okJson b)).1 = .ok b)
    ∧ (oid ≠ "" → ∀ stext2 : String, ∀ em2 : Option String,
        (stripeQueryTransaction st oid (.notOk stext em) (.notOk stext2 em2)).1 =
          .error ("Stripe query failed: Transaction not found: " ++ jsOr (em2.getD "") stext2)) := by
  intro st oid first second b stext em
  refine ⟨?_, ?_, ?_, ?_, ?_⟩
  · simp [stripeQueryTransaction]
  · intro h; simp [stripeQueryTransaction, h]
  · intro h
    cases second <;> simp [stripeQueryTransaction, h]
  · intro h; simp [stripeQueryTransaction, h]
  · intro h stext2 em2; simp [stripeQueryTransaction, h]

/-- Witness for C8: concrete runs of the query — empty id throws with no
fetch, a successful first lookup fetches once, a 404 first lookup
fetches the session URL exactly once and returns or throws according to
the fallback outcome. -/
theorem claim_C8_witness :
    ("pi_123" : String) ≠ "" ∧
    stripeQueryTransaction sampleStripe "" (.okJson "B1") (.okJson "B2") =
      (.error "Order ID (Payment Intent or Session ID) is required", []) ∧
    stripeQueryTransaction sampleStripe "pi_123" (.okJson "B1") (.okJson "B2") =
      (.ok "B1", [stripeApiBase ++ "/payment_intents/" ++ "pi_123"]) ∧
    (stripeQueryTransaction sampleStripe "pi_123" (.notOk "Not Found" none) (.okJson "B2")).2 =
      [stripeApiBase ++ "/payment_intents/" ++ "pi_123",
       stripeApiBase ++ "/checkout/sessions/" ++ "pi_123"] ∧
    (stripeQueryTransaction sampleStripe "pi_123" (.notOk "Not Found" none) (.okJson "B2")).1 =
      .ok "B2" ∧
    (stripeQueryTransaction sampleStripe "pi_123" (.notOk "Not Found" none)
      (.notOk "Not Found" (some "No such session"))).1 =
      .error ("Stripe query failed: Transaction not found: " ++ jsOr "No such session" "Not Found") :=
  ⟨by decide,
   (claim_C8 sampleStripe "pi_123" (.okJson "B1") (.okJson "B2") "B1" "Not Found" none).1,
   (claim_C8 sampleStripe "pi_123" (.okJson "B1") (.okJson "B2") "B1" "Not Found" none).2.1
     (by decide),
   (claim_C8 sampleStripe "pi_123" (.notOk "Not Found" none) (.okJson "B2") "B2" "Not Found"
     none).2.2.1 (by decide),
   (claim_C8 sampleStripe "pi_123" (.notOk "Not Found" none) (.okJson "B2") "B2" "Not Found"
     none).2.2.2.1 (by decide),
   (claim_C8 sampleStripe "pi_123" (.notOk "Not Found" none) (.okJson "B2") "B2" "Not Found"
     none).2.2.2.2 (by decide) "Not Found" (some "No such session")⟩

/-- Validation and conversion of a basket item succeeds exactly on valid
items, yielding the truncated-name, two-decimal-price triple. -/
theorem paytrFormat_ok_of_valid (it : PaymentBasketItem) (h1 : it.name ≠ "")
    (h2 : 0 ≤ it.price) (h3 : 1 ≤ it.quantity) :
    paytrFormatBasketItem it =
      .ok (jsSubstringTo it.name 100, toFixed2Of100th it.price, it.quantity) := by
  simp [paytrFormatBasketItem, h1, Int.not_lt.mpr h2, Int.not_lt.mpr h3]

/-- A basket item violating any per-item rule makes its conversion throw. -/
theorem paytrFormat_err_of_bad (it : PaymentBasketItem)
    (h : it.name = "" ∨ it.price < 0 ∨ it.quantity < 1) :
    exOk (paytrFormatBasketItem it) = false := by
  rcases h with h | h | h
  · simp [paytrFormatBasketItem, h, exOk]
  · by_cases hn : it.name = ""
    · simp [paytrFormatBasketItem, hn, exOk]
    · simp [paytrFormatBasketItem, hn, h, exOk]
  · by_cases hn : it.name = ""
    · simp [paytrFormatBasketItem, hn, exOk]
    · by_cases hp : it.price < 0
      · simp [paytrFormatBasketItem, hn, hp, exOk]
      · simp [paytrFormatBasketItem, hn, hp, h, exOk]

/-- Mapping the item conversion over an all-valid basket yields exactly
the list of converted triples. -/
theorem mapExcept_ok_of_valid (items : List PaymentBasketItem)
    (h : ∀ it ∈ items, it.name ≠ "" ∧ 0 ≤ it.price ∧ 1 ≤ it.quantity) :
    mapExcept paytrFormatBasketItem items =
      .ok (items.map fun it => (jsSubstringTo it.name 100, toFixed2Of100th it.price, it.quantity)) := by
  induction items with
  | nil => simp [mapExcept]
  | cons a t ih =>
    have ha := h a (by simp)
    have ht := ih fun it hit => h it (by simp [hit])
    simp [mapExcept, paytrFormat_ok_of_valid a ha.1 ha.2.1 ha.2.2, ht, Bind.bind, Except.bind]

/-- Mapping the item conversion over a basket containing an invalid item
throws. -/
theorem mapExcept_err_of_bad (items : List PaymentBasketItem)
    (h : ∃ it ∈ items, it.name = "" ∨ it.price < 0 ∨ it.quantity < 1) :
    exOk (mapExcept paytrFormatBasketItem items) = false := by
  induction items with
  | nil => simp at h
  | cons a t ih =>
    by_cases hbad : a.name = "" ∨ a.price < 0 ∨ a.quantity < 1
    · have hfe := paytrFormat_err_of_bad a hbad
      cases hfa : paytrFormatBasketItem a with
      | error e => simp [mapExcept, hfa, exOk, Bind.bind, Except.bind]
      | ok v => rw [hfa] at hfe; simp [exOk] at hfe
    · obtain ⟨it, hit, hitbad⟩ := h
      rcases List.mem_cons.mp hit with rfl | hmem
      · exact absurd hitbad hbad
      · have hrec := ih ⟨it, hmem, hitbad⟩
        simp only [not_or] at hbad
        have ha1 : a.name ≠ "" := hbad.1
        have ha2 : 0 ≤ a.price := Int.not_lt.mp hbad.2.1
        have ha3 : 1 ≤ a.quantity := Int.not_lt.mp hbad.2.2
        cases hmt : mapExcept paytrFormatBasketItem t with
        | error e =>
            simp [mapExcept, paytrFormat_ok_of_valid a ha1 ha2 ha3, hmt, exOk,
              Bind.bind, Except.bind]
        | ok l => rw [hmt] at hrec; simp [exOk] at hrec

/-- C4 (amended): an all-valid basket encodes to the base64 of the JSON
of exactly `items.length` triples (name truncated to 100 characters,
`(price / 100).toFixed(2)`, quantity); the empty basket encodes to the
single placeholder triple, whose name is `"Ürün"` rather than the
claimed `"placeholder"` (the counterexample); any item violating a
per-item rule makes encoding throw. -/
theorem claim_C4 : ∀ items : List PaymentBasketItem,
    ((∀ it ∈ items, it.name ≠ "" ∧ 0 ≤ it.price ∧ 1 ≤ it.quantity) →
      paytrEncodeBasket items = .ok (paytrBasketSpecEncoding items)
      ∧ (items.map fun it =>
          (jsSubstringTo it.name 100, toFixed2Of100th it.price, it.quantity)).length = items.length)
    ∧ ((∃ it ∈ items, it.name = "" ∨ it.price < 0 ∨ it.quantity < 1) →
      exOk (paytrEncodeBasket items) = false) := by
  intro items
  constructor
  · intro h
    refine ⟨?_, by simp⟩
    cases items with
    | nil => simp [paytrEncodeBasket, paytrBasketSpecEncoding]
    | cons a t =>
        simp [paytrEncodeBasket, paytrBasketSpecEncoding, mapExcept_ok_of_valid _ h,
          Bind.bind, Except.bind]
  · intro h
    cases items with
    | nil => simp at h
    | cons a t =>
      have hme := mapExcept_err_of_bad (a :: t) h
      cases hm : mapExcept paytrFormatBasketItem (a :: t) with
      | error e => simp [paytrEncodeBasket, hm, exOk, Bind.bind, Except.bind]
      | ok l => rw [hm] at hme; simp [exOk] at hme

/-- Witness for C4: a valid one-item basket encodes to its spec
encoding, and a basket with an empty item name makes encoding throw. -/
theorem claim_C4_witness :
    (∀ it ∈ [({ name := "Widget", price := 10000, quantity := 1 } : PaymentBasketItem)],
      it.name ≠ "" ∧ 0 ≤ it.price ∧ 1 ≤ it.quantity) ∧
    paytrEncodeBasket [{ name := "Widget", price := 10000, quantity := 1 }] =
      .ok (paytrBasketSpecEncoding [{ name := "Widget", price := 10000, quantity := 1 }]) ∧
    (∃ it ∈ [({ name := "", price := 100, quantity := 1 } : PaymentBasketItem)],
      it.name = "" ∨ it.price < 0 ∨ it.quantity < 1) ∧
    exOk (paytrEncodeBasket [{ name := "", price := 100, quantity := 1 }]) = false :=
  ⟨by decide,
   ((claim_C4 [{ name := "Widget", price := 10000, quantity := 1 }]).1 (by decide)).1,
   by decide,
   (claim_C4 [{ name := "", price := 100, quantity := 1 }]).2 (by decide)⟩

/-- Counterexample to C4 as stated: the empty basket encodes to the
base64 JSON of the triple named `"Ürün"`, which differs from the base64
JSON of the claimed `["placeholder", "1.00", 1]` triple. -/
theorem claim_C4_counterexample :
    paytrEncodeBasket [] = .ok (base64OfString (jsonTriplesArr [("Ürün", "1.00", (1 : Int))])) ∧
    base64OfString (jsonTriplesArr [("Ürün", "1.00", (1 : Int))]) ≠
      base64OfString (jsonTriplesArr [("placeholder", "1.00", (1 : Int))]) :=
  ⟨by decide, by decide⟩
